import Mathlib

/-!
Verification of the correspondence weighting engine
(`app/routes/utils/graph_weighting_engine.py`).

The Python module is pure: every function is a deterministic map from
dictionaries of strings, booleans and numbers to numbers or dictionaries.
We embed it over `ℚ` (Python floats holding short decimal literals) and
`Option` (Python `None` / absent dictionary keys).  Dictionary reads with
`.get(key, default)` become `Option.getD`; dictionary membership tests
become association-list lookups.  The one uncaught exception path of
`calculate_final_weight` (reading `.get` on a missing `target_entity`,
an `AttributeError`) is modelled by returning `none`.
-/

set_option linter.unusedVariables false

namespace GraphWeighting

/-- A planet's row of the `ESSENTIAL_DIGNITIES` table (lines 18-26). -/
structure Dignities where
  rulership : String
  exaltation : String
  detriment : String
  fall : String
deriving DecidableEq

/-- Association-list lookup standing for a Python dict read (the concrete
dicts of the source carry no duplicate keys). -/
def lookup {α : Type} : List (String × α) → String → Option α
  | [], _ => none
  | (k', v) :: rest, k => if k' = k then some v else lookup rest k

/-- `ESSENTIAL_DIGNITIES` (lines 18-26). -/
def ESSENTIAL_DIGNITIES : List (String × Dignities) :=
  [ ("Sun",     ⟨"Leo", "Aries", "Aquarius", "Libra"⟩),
    ("Moon",    ⟨"Cancer", "Taurus", "Capricorn", "Scorpio"⟩),
    ("Mercury", ⟨"Gemini", "Virgo", "Sagittarius", "Pisces"⟩),
    ("Venus",   ⟨"Taurus", "Pisces", "Scorpio", "Virgo"⟩),
    ("Mars",    ⟨"Aries", "Capricorn", "Libra", "Cancer"⟩),
    ("Jupiter", ⟨"Sagittarius", "Cancer", "Gemini", "Capricorn"⟩),
    ("Saturn",  ⟨"Capricorn", "Libra", "Cancer", "Aries"⟩) ]

/-- One ephemeris entry of the `planetary_positions` dict.  Every field is
read in the source with `.get(key, default)`, so each is an `Option`;
fields: `sign`, `altitude`, `is_cazimi`, `is_combust`, `is_retrograde`,
`is_out_of_bounds`. -/
structure Position where
  sign : Option String
  altitude : Option ℚ
  is_cazimi : Option Bool
  is_combust : Option Bool
  is_retrograde : Option Bool
  is_out_of_bounds : Option Bool
deriving DecidableEq

/-- A `target_entity` dict.  Both keys are only ever read with
`.get("name", "")` / `.get("type", "")`, so a missing key and `""` are
indistinguishable; we store the defaulted strings. -/
structure Entity where
  name : String
  etype : String
deriving DecidableEq

/-- A relationship dict.  All five keys are read with `.get`, hence
`Option`; note the source reads the flat `target_type` / `target_name`
keys in `calculate_temporal_relevance` but the nested `target_entity`
dict in `calculate_final_weight`. -/
structure Relationship where
  source_planet : Option String
  target_entity : Option Entity
  target_type : Option String
  target_name : Option String
  relationship_type : Option String
deriving DecidableEq

/-- A context dict.  `planetary_positions` and `graph_data` are only ever
tested for truthiness or looked up, so a missing key and an empty dict
behave identically; we store the (possibly empty) association lists. -/
structure Context where
  planetary_positions : List (String × Position)
  hour_ruler : Option String
  day_ruler : Option String
  current_weekday : Option String
  graph_data : List (String × List String)
deriving DecidableEq

/-- The weight-factor configuration installed by `__init__` (lines 34-40). -/
structure WeightFactors where
  graph_proximity : ℚ
  astrological_authority : ℚ
  temporal_relevance : ℚ
  elemental_dominance : ℚ
deriving DecidableEq

/-- `self.weight_factors` (lines 35-40). -/
def weight_factors : WeightFactors := ⟨0.3, 0.4, 0.2, 0.1⟩

/-- Python's `round(x, 3)`.  Modelled as round-half-up on `ℚ`; Python uses
round-half-even on the binary float, but no value in this development
lands on an exact tie, so the two agree on everything proved below. -/
def round3 (q : ℚ) : ℚ := ((⌊1000 * q + 1 / 2⌋ : ℤ) : ℚ) / 1000

/-- `_find_shortest_path_length` (lines 73-92): the placeholder helper.
`source` is an `Option` because `calculate_final_weight` passes the raw
`relationship.get("source_planet")`; `None == target` is false in Python,
and `direct_connections.get(None, [])` is `[]`. -/
def direct_connections (source : Option String) : List String :=
  if source = some "Mars" then ["Iron", "Sachiel", "Tuesday", "Red"]
  else if source = some "Sun" then ["Gold", "Michael", "Sunday", "Yellow"]
  else if source = some "Moon" then ["Silver", "Gabriel", "Monday", "Silver"]
  else []

def _find_shortest_path_length (source : Option String) (target : String)
    (graph_data : List (String × List String)) : ℕ :=
  if source = some target then 0
  else if target ∈ direct_connections source then 1
  else 3

/-- `calculate_graph_proximity_weight` (lines 46-71). -/
def calculate_graph_proximity_weight (source_entity : Option String)
    (target_entity : String) (graph_data : List (String × List String)) : ℚ :=
  let path_length := _find_shortest_path_length source_entity target_entity graph_data
  if path_length = 1 then 1.0
  else if path_length = 2 then 0.7
  else if path_length = 3 then 0.4
  else if path_length = 4 then 0.2
  else 0.1

/-- `_get_dignity_multiplier` (lines 145-158).  When the planet is absent
from `ESSENTIAL_DIGNITIES`, every `dignity.get(...)` is `None`, no string
equals it, and the result is the neutral 1.0. -/
def _get_dignity_multiplier (planet : String) (sign : String) : ℚ :=
  match lookup ESSENTIAL_DIGNITIES planet with
  | none => 1.0
  | some dignity =>
    if sign = dignity.rulership then 1.5
    else if sign = dignity.exaltation then 1.25
    else if sign = dignity.detriment then 0.75
    else if sign = dignity.fall then 0.5
    else 1.0

/-- `calculate_astrological_authority` (lines 98-143).  The `planet`
argument is the raw `relationship.get("source_planet")` when called from
`calculate_final_weight`; `None` is never a key of the positions dict, so
it falls into the missing-data default 0.5. -/
def calculate_astrological_authority (planet : Option String)
    (planetary_positions : List (String × Position)) : ℚ :=
  match planet with
  | none => 0.5
  | some p =>
    match lookup planetary_positions p with
    | none => 0.5
    | some position =>
      let sign := position.sign.getD ""
      let dignity_mult := _get_dignity_multiplier p sign
      let authority1 := 1.0 * dignity_mult
      let altitude := position.altitude.getD 0
      let visibility_mult : ℚ :=
        if altitude ≥ 0 then 1.0 + altitude / 90 * 0.5 else 0.6
      let authority2 := authority1 * visibility_mult
      let authority3 :=
        if position.is_cazimi.getD false then authority2 * 1.3
        else if position.is_combust.getD false then authority2 * 0.3
        else authority2
      let authority4 :=
        if position.is_retrograde.getD false then authority3 * 0.7 else authority3
      let authority5 :=
        if p = "Moon" ∧ position.is_out_of_bounds.getD false then authority4 * 0.4
        else authority4
      max (min authority5 3.0) 0.1

/-- `calculate_temporal_relevance` (lines 164-214).  The ruler and weekday
arguments are raw `context.get(...)` values, hence `Option`; Python's
`None == None` is `True`, which `Option` equality preserves. -/
def calculate_temporal_relevance (relationship : Relationship)
    (hour_ruler day_ruler current_weekday : Option String) : ℚ :=
  let source_planet := relationship.source_planet
  let target_type := relationship.target_type
  let target_name := relationship.target_name
  let rel_type := relationship.relationship_type
  let base_relevance : ℚ :=
    if source_planet = hour_ruler then
      if target_type = some "Weekday" ∧ target_name ≠ current_weekday then
        1.8 * 0.3
      else 1.8
    else if source_planet = day_ruler then
      if target_type = some "Weekday" ∧ target_name = current_weekday then
        1.2 * 1.3
      else 1.2
    else 0.6
  let modified : ℚ :=
    if rel_type = some "HOUR_RULED_BY" then base_relevance * 1.5
    else if rel_type = some "DAY_RULED_BY" then base_relevance * 1.0
    else if rel_type = some "HAS_ANALOGY_WITH" then base_relevance * 0.8
    else base_relevance
  max (min modified 2.0) 0.1

/-- The eight-axis elemental weather vector (lines 277-286). -/
@[ext]
structure ElementalWeather where
  fire : ℚ
  earth : ℚ
  air : ℚ
  water : ℚ
  hot : ℚ
  cold : ℚ
  dry : ℚ
  moist : ℚ
deriving DecidableEq

def zeroWeather : ElementalWeather := ⟨0, 0, 0, 0, 0, 0, 0, 0⟩

def addWeather (a b : ElementalWeather) : ElementalWeather :=
  ⟨a.fire + b.fire, a.earth + b.earth, a.air + b.air, a.water + b.water,
   a.hot + b.hot, a.cold + b.cold, a.dry + b.dry, a.moist + b.moist⟩

def scaleWeather (c : ℚ) (w : ElementalWeather) : ElementalWeather :=
  ⟨c * w.fire, c * w.earth, c * w.air, c * w.water,
   c * w.hot, c * w.cold, c * w.dry, c * w.moist⟩

/-- `max(elemental_weather.values())` (line 310); the dict always carries
all eight axes, so the `else 1.0` guard for an empty dict is dead code. -/
def maxAxis (w : ElementalWeather) : ℚ :=
  max (max (max w.fire w.earth) (max w.air w.water))
      (max (max w.hot w.cold) (max w.dry w.moist))

/-- `ruler_elements` (lines 289-297); each planet's partial per-axis dict,
absent axes written as 0 (`+= strength` on an axis not in the dict never
happens, so a 0 contribution is indistinguishable). -/
def ruler_elements (p : String) : Option ElementalWeather :=
  if p = "Sun" then some ⟨0.8, 0, 0, 0, 0.9, 0, 0.6, 0⟩
  else if p = "Moon" then some ⟨0, 0, 0, 0.8, 0, 0.6, 0, 0.9⟩
  else if p = "Mars" then some ⟨0.9, 0, 0, 0, 0.8, 0, 0.7, 0⟩
  else if p = "Venus" then some ⟨0, 0.7, 0, 0, 0, 0, 0, 0.8⟩
  else if p = "Mercury" then some ⟨0, 0, 0.8, 0, 0, 0.6, 0.6, 0⟩
  else if p = "Jupiter" then some ⟨0, 0, 0.7, 0, 0.7, 0, 0, 0.6⟩
  else if p = "Saturn" then some ⟨0, 0.9, 0, 0, 0, 0.9, 0.8, 0⟩
  else none

/-- The accumulation steps of `calculate_current_elemental_weather`
(lines 277-307), factored out of the normalization so the proofs below can
speak about the pre-normalization totals.  `hour_ruler in ruler_elements`
is a dict-membership test, false for `None`; the day-ruler branch tests
`day_ruler in ruler_elements and day_ruler != hour_ruler` with the raw
(option-valued) comparison. -/
def raw_elemental_weather (hour_ruler day_ruler : Option String) : ElementalWeather :=
  let w0 := zeroWeather
  let w1 :=
    match hour_ruler.bind ruler_elements with
    | some tbl => addWeather w0 (scaleWeather 1.0 tbl)
    | none => w0
  let w2 :=
    if day_ruler ≠ hour_ruler then
      match day_ruler.bind ruler_elements with
      | some tbl => addWeather w1 (scaleWeather 0.6 tbl)
      | none => w1
    else w1
  w2

/-- `calculate_current_elemental_weather` (lines 268-315); the
`planetary_positions` argument is accepted and ignored, as in the source. -/
def calculate_current_elemental_weather (planetary_positions : List (String × Position))
    (hour_ruler day_ruler : Option String) : ElementalWeather :=
  let elemental_weather := raw_elemental_weather hour_ruler day_ruler
  let max_val := maxAxis elemental_weather
  if max_val > 0 then scaleWeather (1 / max_val) elemental_weather
  else elemental_weather

/-- Substring test over the underlying character lists: `leadsWithChars p s`
holds when `s` starts with `p`. -/
def leadsWithChars : List Char → List Char → Bool
  | [], _ => true
  | _ :: _, [] => false
  | p :: ps, c :: cs => p = c && leadsWithChars ps cs

def hasSubChars : List Char → List Char → Bool
  | [], pat => pat.isEmpty
  | c :: rest, pat => leadsWithChars pat (c :: rest) || hasSubChars rest pat

/-- Python's `pat in s` substring operator on strings. -/
def containsSub (s pat : String) : Bool := hasSubChars s.data pat.data

/-- `_get_entity_elements` (lines 249-266); the `entity_type` local of the
source is computed and never used, so it is omitted. -/
def _get_entity_elements (entity : Entity) : List String :=
  let entity_name := entity.name
  if containsSub entity_name "Iron" then ["Fire", "Dry"]
  else if containsSub entity_name "Silver" then ["Water", "Moist"]
  else if containsSub entity_name "Gold" then ["Fire", "Hot"]
  else []

/-- `calculate_elemental_dominance` (lines 220-247); the loop over the
weather dict's eight entries (insertion order Fire..Moist) becomes the
eight-term sum. -/
def calculate_elemental_dominance (target_entity : Entity)
    (current_elemental_weather : ElementalWeather) : ℚ :=
  let entity_elements := _get_entity_elements target_entity
  if entity_elements = [] then 1.0
  else
    let w := current_elemental_weather
    let alignment_score : ℚ := 1.0
      + (if "Fire" ∈ entity_elements then w.fire * 0.3 else 0)
      + (if "Earth" ∈ entity_elements then w.earth * 0.3 else 0)
      + (if "Air" ∈ entity_elements then w.air * 0.3 else 0)
      + (if "Water" ∈ entity_elements then w.water * 0.3 else 0)
      + (if "Hot" ∈ entity_elements then w.hot * 0.3 else 0)
      + (if "Cold" ∈ entity_elements then w.cold * 0.3 else 0)
      + (if "Dry" ∈ entity_elements then w.dry * 0.3 else 0)
      + (if "Moist" ∈ entity_elements then w.moist * 0.3 else 0)
    max (min alignment_score 1.5) 0.5

/-- `_calculate_rank` (lines 383-394).  Note it receives the raw,
pre-rounding weight in `calculate_final_weight`. -/
def _calculate_rank (weight : ℚ) : String :=
  if weight ≥ 2.0 then "dominant"
  else if weight ≥ 1.5 then "strong"
  else if weight ≥ 1.0 then "moderate"
  else if weight ≥ 0.5 then "weak"
  else "minimal"

/-- `_calculate_confidence` (lines 396-411).  Python truthiness: an absent
or empty positions dict / graph dict is falsy; an absent hour ruler
(`None`) and the empty string are falsy. -/
def _calculate_confidence (weight : ℚ) (context : Context) : ℚ :=
  let dc0 : ℚ := 1.0
  let dc1 := if context.planetary_positions = [] then dc0 * 0.5 else dc0
  let dc2 := if context.hour_ruler.getD "" = "" then dc1 * 0.8 else dc1
  let dc3 := if context.graph_data = [] then dc2 * 0.7 else dc2
  let weight_stability := min (weight / 2.0) 1.0
  round3 (dc3 * weight_stability)

/-- The result dict of `calculate_final_weight` (lines 370-381): the
rounded final weight, the rounded four-way breakdown, the weather vector,
the rank label and the confidence. -/
structure WeightResult where
  final_weight : ℚ
  graph_proximity : ℚ
  astrological_authority : ℚ
  temporal_relevance : ℚ
  elemental_dominance : ℚ
  elemental_weather : ElementalWeather
  rank : String
  confidence : ℚ
deriving DecidableEq

/-- `calculate_final_weight` (lines 321-381).  When the relationship has
no `target_entity`, line 337 (`target_entity.get("name", "")`) raises
`AttributeError` on `None`; that sole failure path is `none` here. -/
def calculate_final_weight (relationship : Relationship) (context : Context) :
    Option WeightResult :=
  match relationship.target_entity with
  | none => none
  | some target_entity =>
    let source_planet := relationship.source_planet
    let graph_weight :=
      calculate_graph_proximity_weight source_planet target_entity.name context.graph_data
    let astro_weight :=
      calculate_astrological_authority source_planet context.planetary_positions
    let temporal_weight :=
      calculate_temporal_relevance relationship context.hour_ruler context.day_ruler
        context.current_weekday
    let elemental_weather :=
      calculate_current_elemental_weather context.planetary_positions context.hour_ruler
        context.day_ruler
    let elemental_weight := calculate_elemental_dominance target_entity elemental_weather
    let final_weight :=
      graph_weight * weight_factors.graph_proximity +
      astro_weight * weight_factors.astrological_authority +
      temporal_weight * weight_factors.temporal_relevance +
      elemental_weight * weight_factors.elemental_dominance
    some
      ⟨round3 final_weight, round3 graph_weight, round3 astro_weight,
       round3 temporal_weight, round3 elemental_weight, elemental_weather,
       _calculate_rank final_weight, _calculate_confidence final_weight context⟩

/-- The pre-rounding combined weight of lines 363-368, for stating how the
rank and confidence of the result relate to it.  Zero in the error case
(never used there). -/
def raw_final_weight (relationship : Relationship) (context : Context) : ℚ :=
  match relationship.target_entity with
  | none => 0
  | some target_entity =>
    calculate_graph_proximity_weight relationship.source_planet target_entity.name
        context.graph_data * weight_factors.graph_proximity +
    calculate_astrological_authority relationship.source_planet
        context.planetary_positions * weight_factors.astrological_authority +
    calculate_temporal_relevance relationship context.hour_ruler context.day_ruler
        context.current_weekday * weight_factors.temporal_relevance +
    calculate_elemental_dominance target_entity
        (calculate_current_elemental_weather context.planetary_positions
          context.hour_ruler context.day_ruler) * weight_factors.elemental_dominance

end GraphWeighting

namespace GraphWeighting

example : calculate_graph_proximity_weight (some "Mars") "Iron" [] = 1.0 := by
  simp +decide [calculate_graph_proximity_weight, _find_shortest_path_length,
    direct_connections]
example : calculate_graph_proximity_weight (some "Mars") "Mars" [] = 0.1 := by
  simp +decide [calculate_graph_proximity_weight, _find_shortest_path_length,
    direct_connections]
example : calculate_astrological_authority (some "Mars")
    [("Mars", ⟨some "Cancer", some (-10), none, some true, some true, none⟩)] = 0.1 := by
  norm_num +decide [calculate_astrological_authority, _get_dignity_multiplier, lookup,
    ESSENTIAL_DIGNITIES]
example : calculate_astrological_authority (some "Mars")
    [("Mars", ⟨some "Aries", some 45, none, some false, none, none⟩)] = 1.875 := by
  norm_num +decide [calculate_astrological_authority, _get_dignity_multiplier, lookup,
    ESSENTIAL_DIGNITIES]
example : round3 (19996 / 10000) = 2 := by norm_num [round3]
example : round3 (89 / 200) = 0.445 := by norm_num [round3]
example : calculate_temporal_relevance ⟨some "Mars", none, none, none, some "HOUR_RULED_BY"⟩
    (some "Mars") (some "Saturn") (some "Saturday") = 2.0 := by
  norm_num +decide [calculate_temporal_relevance]
example : (calculate_current_elemental_weather [] (some "Mars") (some "Saturn")).dry = 1 := by
  norm_num +decide [calculate_current_elemental_weather, raw_elemental_weather,
    ruler_elements, zeroWeather, addWeather, scaleWeather, maxAxis]
example : calculate_elemental_dominance ⟨"Iron", "Metal"⟩
    (calculate_current_elemental_weather [] (some "Mars") (some "Mars")) = 1.5 := by
  norm_num +decide [calculate_elemental_dominance, _get_entity_elements, containsSub,
    hasSubChars, leadsWithChars, calculate_current_elemental_weather,
    raw_elemental_weather, ruler_elements, zeroWeather, addWeather, scaleWeather, maxAxis]

/-- C10.  A self-pair always lands in the minimum proximity bucket: the
placeholder path helper reports length 0 for `source == target`, which
matches none of the 1..4 buckets, so `calculate_graph_proximity_weight`
returns 0.1; any distinct target scores strictly more (1.0 for a mocked
direct connection, 0.4 otherwise), so in particular every directly
connected neighbour outranks the entity itself. -/
theorem self_pair_minimum_bucket (s t : String)
    (graph_data : List (String × List String)) :
    _find_shortest_path_length (some s) s graph_data = 0 ∧
    calculate_graph_proximity_weight (some s) s graph_data = 0.1 ∧
    (t ≠ s → 0.1 < calculate_graph_proximity_weight (some s) t graph_data) := by
  refine ⟨?_, ?_, ?_⟩
  · simp [_find_shortest_path_length]
  · norm_num [calculate_graph_proximity_weight, _find_shortest_path_length]
  · intro hne
    have hs : ¬ ((some s : Option String) = some t) := by
      simp only [Option.some.injEq]
      exact fun h => hne h.symm
    by_cases hmem : t ∈ direct_connections (some s) <;>
      norm_num [calculate_graph_proximity_weight, _find_shortest_path_length, hs, hmem]

/-- Witness for C10 at source Mars, target Iron, empty graph. -/
theorem self_pair_minimum_bucket_witness :
    ("Iron" : String) ≠ "Mars" ∧
    0.1 < calculate_graph_proximity_weight (some "Mars") "Iron" [] :=
  ⟨by decide, (self_pair_minimum_bucket "Mars" "Iron" []).2.2 (by decide)⟩

/-- C4.  `calculate_temporal_relevance` equals the clamped product of the
claimed base (1.8 for the hour ruler, ×0.3 on a wrong-weekday target;
1.2 for the day ruler, ×1.3 on the matching weekday; 0.6 otherwise) and
the claimed relationship-type multiplier (HOUR_RULED_BY 1.5,
DAY_RULED_BY 1.0, HAS_ANALOGY_WITH 0.8, anything else 1.0), clamped to
[0.1, 2.0]. -/
theorem temporal_relevance_formula (relationship : Relationship)
    (hour_ruler day_ruler current_weekday : Option String) :
    calculate_temporal_relevance relationship hour_ruler day_ruler current_weekday =
      max (min (
        (if relationship.source_planet = hour_ruler then
          1.8 * (if relationship.target_type = some "Weekday" ∧
                    relationship.target_name ≠ current_weekday then 0.3 else 1)
         else if relationship.source_planet = day_ruler then
          1.2 * (if relationship.target_type = some "Weekday" ∧
                    relationship.target_name = current_weekday then 1.3 else 1)
         else 0.6) *
        (if relationship.relationship_type = some "HOUR_RULED_BY" then 1.5
         else if relationship.relationship_type = some "DAY_RULED_BY" then 1
         else if relationship.relationship_type = some "HAS_ANALOGY_WITH" then 0.8
         else 1)) 2.0) 0.1 := by
  simp only [calculate_temporal_relevance]
  split_ifs <;> ring_nf

/-- C2.  For a planet present in the positions map, the authority is the
clamp to [0.1, 3.0] of dignity × visibility × combustion × retrograde ×
out-of-bounds, each factor as the specification words it; and the
Scenario-B planet (fall, below horizon, combust, retrograde) whose raw
product is 0.063 returns the clamp floor 0.1. -/
theorem astrological_authority_formula (planet : String)
    (planetary_positions : List (String × Position)) (position : Position)
    (h : lookup planetary_positions planet = some position) :
    (calculate_astrological_authority (some planet) planetary_positions =
      max (min (
        _get_dignity_multiplier planet (position.sign.getD "") *
        (if position.altitude.getD 0 ≥ 0 then
            1 + position.altitude.getD 0 / 90 * 0.5 else 0.6) *
        (if position.is_cazimi.getD false then 1.3
         else if position.is_combust.getD false then 0.3 else 1) *
        (if position.is_retrograde.getD false then 0.7 else 1) *
        (if planet = "Moon" ∧ position.is_out_of_bounds.getD false then 0.4 else 1))
        3.0) 0.1) ∧
    _get_dignity_multiplier "Sun" "Leo" = 1.5 ∧
    _get_dignity_multiplier "Sun" "Aries" = 1.25 ∧
    _get_dignity_multiplier "Sun" "Aquarius" = 0.75 ∧
    _get_dignity_multiplier "Sun" "Libra" = 0.5 ∧
    _get_dignity_multiplier "Sun" "Gemini" = 1.0 ∧
    _get_dignity_multiplier "Pluto" "Leo" = 1.0 ∧
    calculate_astrological_authority (some "Mars")
      [("Mars", ⟨some "Cancer", some (-10), none, some true, some true, none⟩)] = 0.1 ∧
    (0.5 * 0.6 * 0.3 * 0.7 : ℚ) = 0.063 ∧ (0.1 : ℚ) ≠ 0.063 := by
  refine ⟨?_, ?_, ?_, ?_, ?_, ?_, ?_, ?_, by norm_num, by norm_num⟩
  · simp only [calculate_astrological_authority, h]
    split_ifs <;> ring_nf
  all_goals norm_num +decide [_get_dignity_multiplier, lookup, ESSENTIAL_DIGNITIES,
    calculate_astrological_authority]

/-- Witness for C2: Mars in Aries at altitude 45 with no afflictions,
authority 1.5 × 1.25 = 1.875. -/
theorem astrological_authority_formula_witness :
    lookup [("Mars", (⟨some "Aries", some 45, none, some false, none, none⟩ : Position))]
      "Mars" = some ⟨some "Aries", some 45, none, some false, none, none⟩ ∧
    calculate_astrological_authority (some "Mars")
      [("Mars", ⟨some "Aries", some 45, none, some false, none, none⟩)] =
      max (min (
        _get_dignity_multiplier "Mars" ((some "Aries").getD "") *
        (if ((some 45 : Option ℚ)).getD 0 ≥ 0 then
            1 + ((some 45 : Option ℚ)).getD 0 / 90 * 0.5 else 0.6) *
        (if (none : Option Bool).getD false then 1.3
         else if (some false : Option Bool).getD false then 0.3 else 1) *
        (if (none : Option Bool).getD false then 0.7 else 1) *
        (if "Mars" = "Moon" ∧ (none : Option Bool).getD false then 0.4 else 1))
        3.0) 0.1 :=
  ⟨by simp [lookup],
   (astrological_authority_formula "Mars"
      [("Mars", ⟨some "Aries", some 45, none, some false, none, none⟩)]
      ⟨some "Aries", some 45, none, some false, none, none⟩
      (by simp [lookup])).1⟩

/-- C1.  The `final_weight` field of a successful composition equals the
four component scorers' outputs, taken at exactly the inputs the
composer forwards, combined with the default coefficients 0.3 / 0.4 /
0.2 / 0.1 and rounded to 3 decimals. -/
theorem final_weight_composition (relationship : Relationship) (context : Context)
    (te : Entity) (h : relationship.target_entity = some te) :
    (calculate_final_weight relationship context).map WeightResult.final_weight =
      some (round3 (
        calculate_graph_proximity_weight relationship.source_planet te.name
          context.graph_data * 0.3 +
        calculate_astrological_authority relationship.source_planet
          context.planetary_positions * 0.4 +
        calculate_temporal_relevance relationship context.hour_ruler context.day_ruler
          context.current_weekday * 0.2 +
        calculate_elemental_dominance te
          (calculate_current_elemental_weather context.planetary_positions
            context.hour_ruler context.day_ruler) * 0.1)) := by
  simp only [calculate_final_weight, h, Option.map_some']
  norm_num [weight_factors]

/-- Witness for C1 at the driver's Mars → Sachiel relationship under the
Saturday-Mars-hour context (lines 429-446 of the source). -/
theorem final_weight_composition_witness :
    (Relationship.mk (some "Mars") (some ⟨"Sachiel", "Angel"⟩) none none
        (some "HOUR_RULED_BY")).target_entity = some ⟨"Sachiel", "Angel"⟩ ∧
    (calculate_final_weight
        ⟨some "Mars", some ⟨"Sachiel", "Angel"⟩, none, none, some "HOUR_RULED_BY"⟩
        ⟨[("Mars", ⟨some "Aries", some 45, none, some false, none, none⟩),
          ("Saturn", ⟨some "Capricorn", some 60, none, some false, none, none⟩)],
         some "Mars", some "Saturn", some "Saturday", []⟩).map WeightResult.final_weight =
      some (round3 (
        calculate_graph_proximity_weight (some "Mars") "Sachiel" [] * 0.3 +
        calculate_astrological_authority (some "Mars")
          [("Mars", ⟨some "Aries", some 45, none, some false, none, none⟩),
           ("Saturn", ⟨some "Capricorn", some 60, none, some false, none, none⟩)] * 0.4 +
        calculate_temporal_relevance
          ⟨some "Mars", some ⟨"Sachiel", "Angel"⟩, none, none, some "HOUR_RULED_BY"⟩
          (some "Mars") (some "Saturn") (some "Saturday") * 0.2 +
        calculate_elemental_dominance ⟨"Sachiel", "Angel"⟩
          (calculate_current_elemental_weather
            [("Mars", ⟨some "Aries", some 45, none, some false, none, none⟩),
             ("Saturn", ⟨some "Capricorn", some 60, none, some false, none, none⟩)]
            (some "Mars") (some "Saturn")) * 0.1)) :=
  ⟨rfl,
   final_weight_composition
     ⟨some "Mars", some ⟨"Sachiel", "Angel"⟩, none, none, some "HOUR_RULED_BY"⟩
     ⟨[("Mars", ⟨some "Aries", some 45, none, some false, none, none⟩),
       ("Saturn", ⟨some "Capricorn", some 60, none, some false, none, none⟩)],
      some "Mars", some "Saturn", some "Saturday", []⟩
     ⟨"Sachiel", "Angel"⟩ rfl⟩

/-- The pre-normalization totals exactly as the specification words them:
the hour ruler's table at full strength plus, when the day ruler is a
recognized planet distinct from the hour ruler, the day ruler's table at
0.6 (an unrecognized or coinciding day ruler contributes nothing). -/
def combined_ruler_totals (hour_ruler day_ruler : Option String) : ElementalWeather :=
  addWeather (scaleWeather 1.0 ((hour_ruler.bind ruler_elements).getD zeroWeather))
    (scaleWeather 0.6
      (if day_ruler ≠ hour_ruler then (day_ruler.bind ruler_elements).getD zeroWeather
       else zeroWeather))

theorem raw_weather_eq_totals (hour_ruler day_ruler : Option String) :
    raw_elemental_weather hour_ruler day_ruler =
      combined_ruler_totals hour_ruler day_ruler := by
  simp only [raw_elemental_weather, combined_ruler_totals]
  cases hb : hour_ruler.bind ruler_elements <;>
    by_cases hd : day_ruler ≠ hour_ruler <;>
      cases db : day_ruler.bind ruler_elements <;>
        simp [hd, db, addWeather, scaleWeather, zeroWeather]

/-- Every table in `ruler_elements` is axis-wise nonnegative. -/
theorem ruler_elements_nonneg (p : String) (w : ElementalWeather)
    (h : ruler_elements p = some w) :
    0 ≤ w.fire ∧ 0 ≤ w.earth ∧ 0 ≤ w.air ∧ 0 ≤ w.water ∧
    0 ≤ w.hot ∧ 0 ≤ w.cold ∧ 0 ≤ w.dry ∧ 0 ≤ w.moist := by
  simp only [ruler_elements] at h
  split_ifs at h <;> simp only [Option.some.injEq] at h <;> subst h <;> norm_num

/-- Axis-wise nonnegativity of a weather vector. -/
def nonnegW (w : ElementalWeather) : Prop :=
  0 ≤ w.fire ∧ 0 ≤ w.earth ∧ 0 ≤ w.air ∧ 0 ≤ w.water ∧
  0 ≤ w.hot ∧ 0 ≤ w.cold ∧ 0 ≤ w.dry ∧ 0 ≤ w.moist

theorem nonnegW_zero : nonnegW zeroWeather := by norm_num [nonnegW, zeroWeather]

theorem nonnegW_add {a b : ElementalWeather} (ha : nonnegW a) (hb : nonnegW b) :
    nonnegW (addWeather a b) := by
  obtain ⟨a1, a2, a3, a4, a5, a6, a7, a8⟩ := ha
  obtain ⟨b1, b2, b3, b4, b5, b6, b7, b8⟩ := hb
  simp only [nonnegW, addWeather]
  refine ⟨?_, ?_, ?_, ?_, ?_, ?_, ?_, ?_⟩ <;> linarith

theorem nonnegW_scale {c : ℚ} {a : ElementalWeather} (hc : 0 ≤ c) (ha : nonnegW a) :
    nonnegW (scaleWeather c a) := by
  obtain ⟨a1, a2, a3, a4, a5, a6, a7, a8⟩ := ha
  simp only [nonnegW, scaleWeather]
  exact ⟨mul_nonneg hc a1, mul_nonneg hc a2, mul_nonneg hc a3, mul_nonneg hc a4,
    mul_nonneg hc a5, mul_nonneg hc a6, mul_nonneg hc a7, mul_nonneg hc a8⟩

theorem nonnegW_ruler_table (o : Option String) :
    nonnegW ((o.bind ruler_elements).getD zeroWeather) := by
  cases o with
  | none => simpa using nonnegW_zero
  | some p =>
    cases hp : ruler_elements p with
    | none => simpa [hp] using nonnegW_zero
    | some w =>
      simpa [hp, nonnegW] using ruler_elements_nonneg p w hp

theorem combined_ruler_totals_nonneg (hour_ruler day_ruler : Option String) :
    nonnegW (combined_ruler_totals hour_ruler day_ruler) := by
  refine nonnegW_add (nonnegW_scale (by norm_num) (nonnegW_ruler_table hour_ruler))
    (nonnegW_scale (by norm_num) ?_)
  by_cases hd : day_ruler ≠ hour_ruler
  · simpa [if_pos hd] using nonnegW_ruler_table day_ruler
  · simpa [if_neg hd] using nonnegW_zero

theorem maxAxis_scale (c : ℚ) (w : ElementalWeather) (hc : 0 ≤ c) :
    maxAxis (scaleWeather c w) = c * maxAxis w := by
  simp only [maxAxis, scaleWeather]
  rw [← mul_max_of_nonneg w.fire w.earth hc, ← mul_max_of_nonneg w.air w.water hc,
      ← mul_max_of_nonneg w.hot w.cold hc, ← mul_max_of_nonneg w.dry w.moist hc,
      ← mul_max_of_nonneg _ _ hc, ← mul_max_of_nonneg _ _ hc, ← mul_max_of_nonneg _ _ hc]

theorem le_maxAxis (w : ElementalWeather) :
    w.fire ≤ maxAxis w ∧ w.earth ≤ maxAxis w ∧ w.air ≤ maxAxis w ∧
    w.water ≤ maxAxis w ∧ w.hot ≤ maxAxis w ∧ w.cold ≤ maxAxis w ∧
    w.dry ≤ maxAxis w ∧ w.moist ≤ maxAxis w := by
  refine ⟨?_, ?_, ?_, ?_, ?_, ?_, ?_, ?_⟩ <;> simp [maxAxis, le_max_iff]

/-- C5.  `calculate_current_elemental_weather` equals the claimed
combination: per-axis totals (hour ruler's table ×1.0, plus the day
ruler's table ×0.6 when it is a recognized planet distinct from the hour
ruler) divided by the maximum axis total, with the dominant axis landing
exactly at 1.0; the all-zero totals case is returned unchanged with no
division; and in the Mars-hour / Saturn-day instance the maximum combined
axis is Dry = 0.7 + 0.48 = 1.18, which normalizes to exactly 1. -/
theorem elemental_weather_normalization (planetary_positions : List (String × Position))
    (hour_ruler day_ruler : Option String) :
    (calculate_current_elemental_weather planetary_positions hour_ruler day_ruler =
      if maxAxis (combined_ruler_totals hour_ruler day_ruler) > 0 then
        scaleWeather (1 / maxAxis (combined_ruler_totals hour_ruler day_ruler))
          (combined_ruler_totals hour_ruler day_ruler)
      else combined_ruler_totals hour_ruler day_ruler) ∧
    (maxAxis (combined_ruler_totals hour_ruler day_ruler) = 0 →
      calculate_current_elemental_weather planetary_positions hour_ruler day_ruler =
        zeroWeather) ∧
    (maxAxis (combined_ruler_totals hour_ruler day_ruler) > 0 →
      maxAxis (calculate_current_elemental_weather planetary_positions hour_ruler
        day_ruler) = 1) ∧
    (combined_ruler_totals (some "Mars") (some "Saturn")).dry = 0.7 + 0.48 ∧
    maxAxis (combined_ruler_totals (some "Mars") (some "Saturn")) = 1.18 ∧
    (calculate_current_elemental_weather planetary_positions (some "Mars")
      (some "Saturn")).dry = 1 := by
  have hmain : calculate_current_elemental_weather planetary_positions hour_ruler
      day_ruler =
      if maxAxis (combined_ruler_totals hour_ruler day_ruler) > 0 then
        scaleWeather (1 / maxAxis (combined_ruler_totals hour_ruler day_ruler))
          (combined_ruler_totals hour_ruler day_ruler)
      else combined_ruler_totals hour_ruler day_ruler := by
    simp only [calculate_current_elemental_weather, raw_weather_eq_totals]
  refine ⟨hmain, ?_, ?_, ?_, ?_, ?_⟩
  · intro hz
    rw [hmain, if_neg (by rw [hz]; exact lt_irrefl 0)]
    obtain ⟨n1, n2, n3, n4, n5, n6, n7, n8⟩ :=
      combined_ruler_totals_nonneg hour_ruler day_ruler
    obtain ⟨l1, l2, l3, l4, l5, l6, l7, l8⟩ :=
      le_maxAxis (combined_ruler_totals hour_ruler day_ruler)
    rw [hz] at l1 l2 l3 l4 l5 l6 l7 l8
    ext <;> simp only [zeroWeather] <;> linarith
  · intro hpos
    rw [hmain, if_pos hpos, maxAxis_scale _ _ (le_of_lt (one_div_pos.mpr hpos)),
      one_div_mul_cancel (ne_of_gt hpos)]
  · norm_num +decide [combined_ruler_totals, ruler_elements, zeroWeather, addWeather,
      scaleWeather]
  · norm_num +decide [combined_ruler_totals, ruler_elements, zeroWeather, addWeather,
      scaleWeather, maxAxis]
  · norm_num +decide [calculate_current_elemental_weather, raw_elemental_weather,
      ruler_elements, zeroWeather, addWeather, scaleWeather, maxAxis]

/-- Witness for C5: the nonzero-totals branch at hour ruler Mars, day
ruler Saturn, and the all-zero branch at two unrecognized rulers. -/
theorem elemental_weather_normalization_witness :
    (maxAxis (combined_ruler_totals (some "Mars") (some "Saturn")) > 0 ∧
      maxAxis (calculate_current_elemental_weather [] (some "Mars") (some "Saturn")) =
        1) ∧
    (maxAxis (combined_ruler_totals (some "Pluto") none) = 0 ∧
      calculate_current_elemental_weather [] (some "Pluto") none = zeroWeather) :=
  ⟨⟨by norm_num +decide [combined_ruler_totals, ruler_elements, zeroWeather, addWeather,
        scaleWeather, maxAxis],
    (elemental_weather_normalization [] (some "Mars") (some "Saturn")).2.2.1
      (by norm_num +decide [combined_ruler_totals, ruler_elements, zeroWeather,
            addWeather, scaleWeather, maxAxis])⟩,
   ⟨by norm_num +decide [combined_ruler_totals, ruler_elements, zeroWeather, addWeather,
        scaleWeather, maxAxis],
    (elemental_weather_normalization [] (some "Pluto") none).2.1
      (by norm_num +decide [combined_ruler_totals, ruler_elements, zeroWeather,
            addWeather, scaleWeather, maxAxis])⟩⟩

/-- Undirected neighbours of a node in an adjacency list: its listed
successors together with every node that lists it as a successor. -/
def undirected_neighbors (graph : List (String × List String)) (v : String) :
    List String :=
  ((graph.filter (fun e => e.1 == v)).map (fun e => e.2)).flatten ++
    (graph.filter (fun e => e.2.contains v)).map (fun e => e.1)

def bfs_levels (graph : List (String × List String)) (target : String) :
    ℕ → List String → List String → ℕ → Option ℕ
  | 0, _, _, _ => none
  | fuel + 1, frontier, visited, d =>
    if frontier.contains target then some d
    else
      let next := ((frontier.map (undirected_neighbors graph)).flatten).filter
        (fun u => ! visited.contains u)
      if next.isEmpty then none
      else bfs_levels graph target fuel next (visited ++ next) (d + 1)

/-- The distance notion named by the specification for the proximity
scorer (section 4.2): shortest unweighted undirected path length between
two entities, `none` when the target is unreachable.  Breadth-first
search with fuel covering every node mentioned by the adjacency list. -/
def spec_shortest_path_length (graph : List (String × List String))
    (source target : String) : Option ℕ :=
  bfs_levels graph target
    (graph.length + (graph.map (fun e => e.2.length)).sum + 2) [source] [source] 0

/-- C3 (code bug).  The proximity scorer never inspects `graph_data`: for
the one-edge graph Venus—Copper the shortest undirected path length is 1,
so the claimed bucket is 1.0, yet the placeholder helper reports 3 hops
(Venus is outside its hard-coded table) and the scorer returns 0.4; for
the empty graph Copper is unreachable from Venus, the claimed bucket is
0.1, and the scorer still returns 0.4. -/
theorem proximity_ignores_graph :
    spec_shortest_path_length [("Venus", ["Copper"])] "Venus" "Copper" = some 1 ∧
    calculate_graph_proximity_weight (some "Venus") "Copper"
      [("Venus", ["Copper"])] = 0.4 ∧
    spec_shortest_path_length [] "Venus" "Copper" = none ∧
    calculate_graph_proximity_weight (some "Venus") "Copper" [] = 0.4 ∧
    (0.4 : ℚ) ≠ 1.0 ∧ (0.4 : ℚ) ≠ 0.1 := by
  refine ⟨by decide, ?_, by decide, ?_, by norm_num, by norm_num⟩ <;>
    norm_num +decide [calculate_graph_proximity_weight, _find_shortest_path_length,
      direct_connections]

/-- The `mars_tuesday` relationship of the source's own test driver
(lines 451-455): the wrong-weekday target, carried only in the nested
`target_entity` dict. -/
def mars_tuesday : Relationship :=
  ⟨some "Mars", some ⟨"Tuesday", "Weekday"⟩, none, none, some "DAY_RULED_BY"⟩

/-- The `context_saturday_mars` context of the test driver (lines
429-437): Mars rules the hour, Saturn the day, on a Saturday. -/
def context_saturday_mars : Context :=
  ⟨[("Mars", ⟨some "Aries", some 45, none, some false, none, none⟩),
    ("Saturn", ⟨some "Capricorn", some 60, none, some false, none, none⟩)],
   some "Mars", some "Saturn", some "Saturday", []⟩

/-- C7 (code bug).  Through the composer, the ×0.3 wrong-weekday penalty
never applies to a relationship whose Weekday target lives in the nested
`target_entity` dict: the temporal scorer reads the flat `target_type` /
`target_name` keys, which the composer-shaped relationship does not
carry, so the driver's own "temporal conflict" case Mars → Tuesday on a
Saturday Mars hour reports the unpenalized 1.8 instead of the claimed
clamp(1.8 × 0.3 × 1.0) = 0.54. -/
theorem composer_misses_weekday_penalty :
    mars_tuesday.target_entity = some ⟨"Tuesday", "Weekday"⟩ ∧
    mars_tuesday.target_type = none ∧
    context_saturday_mars.current_weekday = some "Saturday" ∧
    (calculate_final_weight mars_tuesday context_saturday_mars).map
      WeightResult.temporal_relevance = some 1.8 ∧
    calculate_temporal_relevance mars_tuesday (some "Mars") (some "Saturn")
      (some "Saturday") = 1.8 ∧
    max (min (1.8 * 0.3 * 1.0) 2.0) 0.1 = (0.54 : ℚ) ∧
    (1.8 : ℚ) ≠ 0.54 := by
  refine ⟨rfl, rfl, rfl, ?_, ?_, by norm_num, by norm_num⟩
  · norm_num +decide [calculate_final_weight, mars_tuesday, context_saturday_mars,
      calculate_graph_proximity_weight, _find_shortest_path_length, direct_connections,
      calculate_astrological_authority, _get_dignity_multiplier, lookup,
      ESSENTIAL_DIGNITIES, calculate_temporal_relevance,
      calculate_current_elemental_weather, raw_elemental_weather, ruler_elements,
      zeroWeather, addWeather, scaleWeather, maxAxis, calculate_elemental_dominance,
      _get_entity_elements, containsSub, hasSubChars, leadsWithChars, weight_factors,
      _calculate_rank, _calculate_confidence, round3]
  · norm_num +decide [calculate_temporal_relevance, mars_tuesday]

/-- The Mars → Iron hour relationship used by the rank and confidence
counterexamples. -/
def mars_iron_relationship : Relationship :=
  ⟨some "Mars", some ⟨"Iron", "Metal"⟩, none, none, some "HOUR_RULED_BY"⟩

/-- A context whose pre-rounding combined weight for
`mars_iron_relationship` is exactly 1.9996: cazimi Mars in Aries at
altitude 5544/65 ≈ 85.29° gives authority 1.5 × (479/325) × 1.3 = 2.874,
and 0.3·1 + 0.4·2.874 + 0.2·2 + 0.1·1.5 = 1.9996. -/
def context_cazimi_mars : Context :=
  ⟨[("Mars", ⟨some "Aries", some (5544 / 65), some true, some false, some false, none⟩)],
   some "Mars", some "Mars", some "Tuesday", [("Mars", ["Iron"])]⟩

/-- C6 counterexample.  Rounding can cross a rank threshold: here the raw
combined weight is 1.9996, so the reported `final_weight` is 2.000 — at
the claimed "dominant" cut — while the reported rank is "strong", because
`_calculate_rank` receives the raw value, not the rounded one. -/
theorem rank_rounding_mismatch :
    (calculate_final_weight mars_iron_relationship context_cazimi_mars).map
      WeightResult.final_weight = some 2 ∧
    (calculate_final_weight mars_iron_relationship context_cazimi_mars).map
      WeightResult.rank = some "strong" ∧
    _calculate_rank 2 = "dominant" ∧
    ("strong" : String) ≠ "dominant" := by
  refine ⟨?_, ?_, by norm_num [_calculate_rank], by decide⟩ <;>
    norm_num +decide [calculate_final_weight, mars_iron_relationship,
      context_cazimi_mars, calculate_graph_proximity_weight,
      _find_shortest_path_length, direct_connections, calculate_astrological_authority,
      _get_dignity_multiplier, lookup, ESSENTIAL_DIGNITIES, calculate_temporal_relevance,
      calculate_current_elemental_weather, raw_elemental_weather, ruler_elements,
      zeroWeather, addWeather, scaleWeather, maxAxis, calculate_elemental_dominance,
      _get_entity_elements, containsSub, hasSubChars, leadsWithChars, weight_factors,
      _calculate_rank, _calculate_confidence, round3]

/-- C6 as amended.  The rank label of every successful composition is the
fixed thresholds (≥2 dominant, ≥1.5 strong, ≥1 moderate, ≥0.5 weak, else
minimal — constants of `_calculate_rank`, not derived from the
coefficients) applied to the pre-rounding combined weight; it agrees with
the claim whenever rounding does not cross a threshold. -/
theorem rank_thresholds_on_raw_weight (relationship : Relationship)
    (context : Context) (r : WeightResult)
    (h : calculate_final_weight relationship context = some r) :
    r.rank = _calculate_rank (raw_final_weight relationship context) ∧
    _calculate_rank 2 = "dominant" ∧ _calculate_rank 1.5 = "strong" ∧
    _calculate_rank 1 = "moderate" ∧ _calculate_rank 0.5 = "weak" ∧
    _calculate_rank 0.499 = "minimal" := by
  refine ⟨?_, by norm_num [_calculate_rank], by norm_num [_calculate_rank],
    by norm_num [_calculate_rank], by norm_num [_calculate_rank],
    by norm_num [_calculate_rank]⟩
  cases hte : relationship.target_entity with
  | none => rw [calculate_final_weight, hte] at h; exact absurd h (by simp)
  | some te =>
    rw [calculate_final_weight, hte] at h
    simp only [Option.some.injEq] at h
    rw [← h]
    simp only [raw_final_weight, hte]

/-- Witness for the amended C6 at a minimal composable input. -/
theorem rank_thresholds_on_raw_weight_witness :
    calculate_final_weight ⟨none, some ⟨"X", ""⟩, none, none, none⟩
      ⟨[], none, none, none, []⟩ =
      some ⟨0.78, 0.4, 0.5, 1.8, 1, zeroWeather, "weak", 0.109⟩ ∧
    (WeightResult.mk 0.78 0.4 0.5 1.8 1 zeroWeather "weak" 0.109).rank =
      _calculate_rank (raw_final_weight ⟨none, some ⟨"X", ""⟩, none, none, none⟩
        ⟨[], none, none, none, []⟩) := by
  have hres : calculate_final_weight ⟨none, some ⟨"X", ""⟩, none, none, none⟩
      ⟨[], none, none, none, []⟩ =
      some ⟨0.78, 0.4, 0.5, 1.8, 1, zeroWeather, "weak", 0.109⟩ := by
    norm_num +decide [calculate_final_weight, calculate_graph_proximity_weight,
      _find_shortest_path_length, direct_connections, calculate_astrological_authority,
      calculate_temporal_relevance, calculate_current_elemental_weather,
      raw_elemental_weather, ruler_elements, zeroWeather, addWeather, scaleWeather,
      maxAxis, calculate_elemental_dominance, _get_entity_elements, containsSub,
      hasSubChars, leadsWithChars, weight_factors, _calculate_rank,
      _calculate_confidence, round3]
  exact ⟨hres,
    (rank_thresholds_on_raw_weight ⟨none, some ⟨"X", ""⟩, none, none, none⟩
      ⟨[], none, none, none, []⟩ _ hres).1⟩

/-- A full context for the confidence comparison: Mars rules hour and day
but is in fall, below the horizon, combust and retrograde (authority at
the 0.1 clamp floor), with a nonempty graph dict. -/
def context_full_positions : Context :=
  ⟨[("Mars", ⟨some "Cancer", some (-10), none, some true, some true, none⟩)],
   some "Mars", some "Mars", some "Tuesday", [("Mars", ["Iron"])]⟩

/-- The same context with the planetary positions emptied. -/
def context_empty_positions : Context :=
  ⟨[], some "Mars", some "Mars", some "Tuesday", [("Mars", ["Iron"])]⟩

/-- C8 counterexample.  Emptying the positions map does halve the
data-completeness factor, but the weight-stability factor
`min(final/2, 1)` is computed from each call's own final weight, and the
0.5 astrological default exceeds the full context's clamp-floor authority
0.1: confidence drops only from 0.445 to 0.263, more than half of 0.445,
refuting "reduced by at least the 0.5 penalty". -/
theorem confidence_not_halved :
    (calculate_final_weight mars_iron_relationship context_full_positions).map
      WeightResult.confidence = some 0.445 ∧
    (calculate_final_weight mars_iron_relationship context_empty_positions).map
      WeightResult.confidence = some 0.263 ∧
    (calculate_final_weight mars_iron_relationship context_empty_positions).map
      WeightResult.astrological_authority = some 0.5 ∧
    ¬ ((0.263 : ℚ) ≤ 0.5 * 0.445) := by
  refine ⟨?_, ?_, ?_, by norm_num⟩ <;>
    norm_num +decide [calculate_final_weight, mars_iron_relationship,
      context_full_positions, context_empty_positions,
      calculate_graph_proximity_weight, _find_shortest_path_length, direct_connections,
      calculate_astrological_authority, _get_dignity_multiplier, lookup,
      ESSENTIAL_DIGNITIES, calculate_temporal_relevance,
      calculate_current_elemental_weather, raw_elemental_weather, ruler_elements,
      zeroWeather, addWeather, scaleWeather, maxAxis, calculate_elemental_dominance,
      _get_entity_elements, containsSub, hasSubChars, leadsWithChars, weight_factors,
      _calculate_rank, _calculate_confidence, round3]

/-- C8 as amended.  Composing with an empty positions map never raises
(the composition succeeds whenever a target entity is present); the
astrological sub-score takes the neutral 0.5 default for every planet;
and the returned confidence carries the ×0.5 data-completeness penalty as
a factor — but, as `confidence_not_halved` shows, the overall confidence
need not be ≤ half of the otherwise-identical full-positions call's,
because the weight-stability factor differs between the two calls. -/
theorem empty_positions_degrade (relationship : Relationship) (context : Context)
    (te : Entity) (h1 : relationship.target_entity = some te)
    (h2 : context.planetary_positions = []) :
    (calculate_final_weight relationship context).isSome = true ∧
    (∀ p : Option String, calculate_astrological_authority p [] = 0.5) ∧
    (∀ r : WeightResult, calculate_final_weight relationship context = some r →
      r.confidence = round3 (0.5 *
        (if context.hour_ruler.getD "" = "" then 0.8 else 1) *
        (if context.graph_data = [] then 0.7 else 1) *
        min (raw_final_weight relationship context / 2) 1)) := by
  refine ⟨?_, ?_, ?_⟩
  · rw [calculate_final_weight, h1]; rfl
  · intro p
    cases p with
    | none => rfl
    | some q => simp [calculate_astrological_authority, lookup]
  · intro r hr
    rw [calculate_final_weight, h1] at hr
    simp only [Option.some.injEq] at hr
    rw [← hr]
    show _calculate_confidence _ context = _
    rw [_calculate_confidence, raw_final_weight, h1]
    rw [if_pos h2]
    split_ifs <;> · congr 1; ring_nf

/-- Witness for the amended C8 at `mars_iron_relationship` under the
emptied context. -/
theorem empty_positions_degrade_witness :
    mars_iron_relationship.target_entity = some ⟨"Iron", "Metal"⟩ ∧
    context_empty_positions.planetary_positions = [] ∧
    ((calculate_final_weight mars_iron_relationship context_empty_positions).isSome =
        true ∧
      (∀ p : Option String, calculate_astrological_authority p [] = 0.5) ∧
      (∀ r : WeightResult,
        calculate_final_weight mars_iron_relationship context_empty_positions =
          some r →
        r.confidence = round3 (0.5 *
          (if context_empty_positions.hour_ruler.getD "" = "" then 0.8 else 1) *
          (if context_empty_positions.graph_data = [] then 0.7 else 1) *
          min (raw_final_weight mars_iron_relationship context_empty_positions / 2)
            1))) :=
  ⟨rfl, rfl,
   empty_positions_degrade mars_iron_relationship context_empty_positions
     ⟨"Iron", "Metal"⟩ rfl rfl⟩

/-- A relationship whose `source_planet` key is absent. -/
def no_source_relationship : Relationship :=
  ⟨none, some ⟨"Iron", "Metal"⟩, none, none, some "HAS_ANALOGY_WITH"⟩

/-- C9 counterexample.  A relationship with no source planet is composed
without any validation error: the engine silently defaults (authority
falls back to the missing-data 0.5, proximity buckets the unknown source
at 3 hops) and returns an ordinary WeightResult with weight 0.566 and
rank "weak". -/
theorem missing_source_returns_result :
    no_source_relationship.source_planet = none ∧
    (calculate_final_weight no_source_relationship context_full_positions).isSome =
      true ∧
    (calculate_final_weight no_source_relationship context_full_positions).map
      WeightResult.final_weight = some 0.566 ∧
    (calculate_final_weight no_source_relationship context_full_positions).map
      WeightResult.astrological_authority = some 0.5 ∧
    (calculate_final_weight no_source_relationship context_full_positions).map
      WeightResult.rank = some "weak" := by
  refine ⟨rfl, rfl, ?_, ?_, ?_⟩ <;>
    norm_num +decide [calculate_final_weight, no_source_relationship,
      context_full_positions, calculate_graph_proximity_weight,
      _find_shortest_path_length, direct_connections, calculate_astrological_authority,
      _get_dignity_multiplier, lookup, ESSENTIAL_DIGNITIES, calculate_temporal_relevance,
      calculate_current_elemental_weather, raw_elemental_weather, ruler_elements,
      zeroWeather, addWeather, scaleWeather, maxAxis, calculate_elemental_dominance,
      _get_entity_elements, containsSub, hasSubChars, leadsWithChars, weight_factors,
      _calculate_rank, _calculate_confidence, round3]

/-- C9 as amended.  `calculate_final_weight` performs no source-planet
validation: whenever the target entity is present, a relationship with an
absent `source_planet` yields a normal WeightResult (no error of any
kind), with the astrological sub-score silently defaulting to 0.5. -/
theorem missing_source_silently_defaults (relationship : Relationship)
    (context : Context) (te : Entity) (h1 : relationship.source_planet = none)
    (h2 : relationship.target_entity = some te) :
    (calculate_final_weight relationship context).isSome = true ∧
    (calculate_final_weight relationship context).map
      WeightResult.astrological_authority = some 0.5 := by
  constructor
  · rw [calculate_final_weight, h2]; rfl
  · rw [calculate_final_weight, h2]
    simp only [Option.map_some', Option.some.injEq, h1]
    show round3 (calculate_astrological_authority none _) = 0.5
    norm_num [calculate_astrological_authority, round3]

/-- Witness for the amended C9. -/
theorem missing_source_silently_defaults_witness :
    no_source_relationship.source_planet = none ∧
    no_source_relationship.target_entity = some ⟨"Iron", "Metal"⟩ ∧
    ((calculate_final_weight no_source_relationship context_empty_positions).isSome =
        true ∧
      (calculate_final_weight no_source_relationship context_empty_positions).map
        WeightResult.astrological_authority = some 0.5) :=
  ⟨rfl, rfl,
   missing_source_silently_defaults no_source_relationship context_empty_positions
     ⟨"Iron", "Metal"⟩ rfl rfl⟩

end GraphWeighting
